import Mathlib

/-!
Verification of the AirtimePlus mini-app payment submission flow.

The repository contains several revisions of the `BuyAirtime` component.
This development embeds, as pure Lean functions over an explicit external
world, the relevant parts of:

* the direct-transfer flow (`checkUsdcBalance`, `checkAllowance`,
  `transferUsdcDirectly`, `handleConfirmedSubmit`, `handleSubmitForm`)
  of the revision that performs balance check, allowance check,
  approve-if-needed, transfer, receipt wait and fulfillment call;
* the `processPayment` revisions: one that waits for the receipt with a
  60 s timeout and checks its status before the fulfillment call, and one
  that waits without a timeout and never inspects the receipt status; and
* the `BuyAirtime` component of `Components.tsx`.

External collaborators (wallet, chain, fulfillment service) are modelled
by a `World` record supplying their responses; every on-chain read/write
and every outbound HTTP call is recorded in a trace of `Event`s so that
side-effect properties (orderings, counts, addresses) can be stated.

The decimal conversion functions `parseUnits` and `formatUnits` are the
viem library functions the source calls; they are translated here from
viem's implementation (string-based fixed-point conversion with
round-half-up on excess digits, and decimal rendering with trailing-zero
trimming).
-/

/-- Value of a list of decimal digit characters, most significant first. -/
def digitsToNat (l : List Char) : Nat :=
  l.foldl (fun a c => a * 10 + (c.toNat - 48)) 0

/-- Remove trailing '0' characters (viem: `fraction.replace(/(0+)$/, '')`). -/
def stripTrailingZeros (l : List Char) : List Char :=
  (l.reverse.dropWhile (fun c => c == '0')).reverse

/-- Rounding bit applied by viem `parseUnits` to the digits dropped beyond
the requested precision: `Math.round(Number(unit.right))` increments the
last kept digit exactly when the dropped remainder is at least one half,
i.e. when its first digit is at least '5'. -/
def roundHalfUpBit (rest : List Char) : Bool :=
  match rest with
  | [] => false
  | c :: _ => decide ('5' ≤ c)

/-- Core of viem `parseUnits` for an input that contains a decimal point,
on the integer-part and fraction-part digit lists: trailing zeros of the
fraction are trimmed; a fraction no longer than `decimals` is padded, a
longer one is cut at `decimals` digits with the round-half-up bit added. -/
def parseUnitsFrac (i f : List Char) (decimals : Nat) : Nat :=
  let fr := stripTrailingZeros f
  if fr.length ≤ decimals then
    digitsToNat i * 10 ^ decimals + digitsToNat fr * 10 ^ (decimals - fr.length)
  else
    digitsToNat i * 10 ^ decimals + digitsToNat (fr.take decimals) +
      (if roundHalfUpBit (fr.drop decimals) then 1 else 0)

/-- Split a character list at '.' separators (JS `value.split('.')`). -/
def splitDot : List Char → List (List Char)
  | [] => [[]]
  | c :: cs =>
    if c = '.' then [] :: splitDot cs
    else
      match splitDot cs with
      | [] => [[c]]
      | p :: ps => (c :: p) :: ps

/-- viem `parseUnits` on a nonnegative decimal literal: the source calls it
as `parseUnits(usdcValue.toString(), 6)` to turn the catalog price into the
token's fixed-point integer representation. -/
def parseUnits (value : String) (decimals : Nat) : Nat :=
  match splitDot value.toList with
  | [i] => digitsToNat i * 10 ^ decimals
  | [i, f] => parseUnitsFrac i f decimals
  | _ => 0

/-- Modelled from the spec: conversion of a decimal price to the token's
fixed-point representation by scaling with `10 ^ 6` and truncating, with no
rounding, on the integer-part and fraction-part digit lists. -/
def truncScaleFrac (i f : List Char) : Nat :=
  digitsToNat i * 10 ^ 6 + digitsToNat (f.take 6) * 10 ^ (6 - min f.length 6)

/-- Modelled from the spec: `value × 10^6, truncated, no rounding`, on a
nonnegative decimal literal. -/
def specTruncatedScale (value : String) : Nat :=
  match splitDot value.toList with
  | [i] => digitsToNat i * 10 ^ 6
  | [i, f] => truncScaleFrac i f
  | _ => 0

/-- viem `formatUnits`: decimal rendering of a token amount; pads to
`decimals` digits, splits off the fraction and trims its trailing zeros. -/
def formatUnits (value : Nat) (decimals : Nat) : String :=
  let ds := (toString value).toList
  let padded := List.replicate (decimals - ds.length) '0' ++ ds
  let intPart := padded.take (padded.length - decimals)
  let fracPart := stripTrailingZeros (padded.drop (padded.length - decimals))
  (if intPart.isEmpty then "0" else intPart.asString) ++
    (if fracPart.isEmpty then "" else "." ++ fracPart.asString)

/-! ## Data model and external-world interface -/

/-- A JSON value appearing in a request body (only strings and numbers occur). -/
inductive JsonVal
  | str (s : String)
  | num (n : Nat)
deriving DecidableEq

/-- One catalog entry (`AirtimeService` in the source). The stablecoin price
`usdc_value` is kept as the decimal string rendering of the JSON number,
which is what `usdcValue.toString()` passes to `parseUnits`. -/
structure AirtimeService where
  network_operator : String
  operator_id : String
  amount : Nat
  currency : String
  usdc_value : String
deriving DecidableEq

/-- Outcome of `waitForTransactionReceipt`: a receipt whose status is
success, a receipt whose status is reverted, or no receipt (the wait
raised, e.g. because the requested timeout elapsed). -/
inductive ReceiptOutcome
  | success
  | reverted
  | timeout
deriving DecidableEq

/-- Classified failures, one constructor per throw site of the source.
`insufficientFunds` and `fulfillmentFailed` carry the source's message. -/
inductive Err
  | walletUnavailable
  | balanceCheckFailed
  | insufficientFunds (msg : String)
  | approvalReverted
  | transferReverted
  | confirmationTimeout
  | paymentFailed
  | processPaymentReverted
  | waitFailed
  | fulfillmentFailed (msg : String)
deriving DecidableEq

/-- Result of one submission attempt: the controller's contract is
`Succeeded(transactionHash)` or `Failed(error)`. -/
inductive Outcome
  | succeeded (txHash : String)
  | failed (e : Err)
deriving DecidableEq

/-- Observable side effects of a submission: on-chain reads and writes and
outbound HTTP calls, in order of occurrence. -/
inductive Event
  | readChainId
  | readBalance (token account : String)
  | readAllowance (token owner spender : String)
  | submitApprove (token spender : String) (amount : Nat)
  | submitTransfer (token recipient : String) (amount : Nat)
  | submitProcessPayment (contract : String) (amount : Nat)
  | awaitReceipt (hash : String) (timeoutMs : Option Nat)
  | postTopup (url : String) (body : List (String × JsonVal))
deriving DecidableEq

/-- Responses of the external collaborators consumed by one submission.
`allowanceAt` gives the allowance an ERC-20 contract at the given address
reports for (user, payment contract). -/
structure World where
  walletOk : Bool
  chainId : Nat
  address : String
  balanceReadOk : Bool
  balance : Nat
  allowanceAt : String → Nat
  approveHash : String
  approveReceipt : ReceiptOutcome
  transferHash : String
  transferReceipt : ReceiptOutcome
  paymentHash : String
  paymentReceipt : ReceiptOutcome
  topupOk : Bool
  topupError : Option String

/-- Payment destination contract (`CONTRACT_ADDRESS`), a fixed constant in
every revision. -/
def CONTRACT_ADDRESS : String := "0xaF108Dd1aC530F1c4BdED13f43E336A9cec92B44"

/-- Mainnet USDC token contract (`USDC_CONTRACT_ADDRESS`). -/
def USDC_CONTRACT_ADDRESS : String := "0xA0b86991c6218b36c1d19D4a2e9Eb0cE3606eB48"

/-- Base USDC token contract (the second branch of the chain-id selection). -/
def BASE_USDC_CONTRACT_ADDRESS : String := "0x833589fCD6eDb6E08f4c7C32D4f71b54bdA02913"

/-- Default fulfillment service base URL (`API_BASE_URL` in config.ts). -/
def API_BASE_URL : String := "https://airtimeplus-api.vercel.app"

/-- Token address selection used by `checkUsdcBalance` and
`transferUsdcDirectly`: mainnet USDC when the chain id is 1, Base USDC
otherwise (`chainId === 1 ? mainnet : base`). -/
def usdcAddressFor (chainId : Nat) : String :=
  if chainId = 1 then USDC_CONTRACT_ADDRESS else BASE_USDC_CONTRACT_ADDRESS

/-! ## The direct-transfer flow (balance, allowance, approve, transfer) -/

/-- The `checkUsdcBalance` helper: reads the chain id, selects the token address from
it, and reads `balanceOf(address)` there; a failing read is surfaced as the
balance-check error. -/
def checkUsdcBalance (w : World) : Except Err Nat × List Event :=
  let usdcAddress := usdcAddressFor w.chainId
  let evs := [Event.readChainId, Event.readBalance usdcAddress w.address]
  if w.balanceReadOk then (.ok w.balance, evs) else (.error .balanceCheckFailed, evs)

/-- The `checkAllowance` helper: reads `allowance(address, CONTRACT_ADDRESS)` at the
fixed `USDC_CONTRACT_ADDRESS` constant (the mainnet token address),
independent of the connected chain id. This helper is defined in the
direct-transfer revision but not invoked by its submission flow. -/
def checkAllowance (w : World) : Nat × List Event :=
  (w.allowanceAt USDC_CONTRACT_ADDRESS,
   [Event.readAllowance USDC_CONTRACT_ADDRESS w.address CONTRACT_ADDRESS])

/-- Tail of `transferUsdcDirectly`: submit the `transfer(CONTRACT_ADDRESS,
amount)` transaction and wait for its receipt with a 60000 ms timeout;
a reverted receipt throws, a timeout throws, success returns the hash. -/
def transferStep (w : World) (amount : Nat) (evs : List Event) :
    Except Err String × List Event :=
  let evT := evs ++ [Event.submitTransfer (usdcAddressFor w.chainId) CONTRACT_ADDRESS amount,
                     Event.awaitReceipt w.transferHash (some 60000)]
  match w.transferReceipt with
  | .timeout => (.error .confirmationTimeout, evT)
  | .reverted => (.error .transferReverted, evT)
  | .success => (.ok w.transferHash, evT)

/-- The `transferUsdcDirectly` helper: reads the chain id, selects the token address,
reads the allowance there; if the allowance is below the amount, submits an
approval, waits for its receipt (60000 ms timeout) and throws if reverted
or timed out; then performs the transfer step. -/
def transferUsdcDirectly (w : World) (amount : Nat) :
    Except Err String × List Event :=
  let usdcAddress := usdcAddressFor w.chainId
  let evHead := [Event.readChainId,
                 Event.readAllowance usdcAddress w.address CONTRACT_ADDRESS]
  if w.allowanceAt usdcAddress < amount then
    let evA := evHead ++ [Event.submitApprove usdcAddress CONTRACT_ADDRESS amount,
                          Event.awaitReceipt w.approveHash (some 60000)]
    match w.approveReceipt with
    | .timeout => (.error .confirmationTimeout, evA)
    | .reverted => (.error .approvalReverted, evA)
    | .success => transferStep w amount evA
  else
    transferStep w amount evHead

/-- Fulfillment request body of the direct-transfer revision: the seven
JSON fields posted to `send-topup`, with the literal sender phone and
recipient email and the transfer transaction hash. -/
def topupBody (s : AirtimeService) (recipientPhone txHash : String) :
    List (String × JsonVal) :=
  [("operatorId", .str s.operator_id),
   ("amount", .num s.amount),
   ("currency", .str s.currency),
   ("recipientPhone", .str recipientPhone),
   ("senderPhone", .str "08012345678"),
   ("recipientEmail", .str "miniapp@aitimeplus.xyz"),
   ("tx_hash", .str txHash)]

/-- The insufficient-balance message thrown by the balance check. -/
def insufficientFundsMsg (balance : Nat) (usdcValue : String) : String :=
  "Insufficient USDC balance. You have " ++ formatUnits balance 6 ++
    " USDC, but " ++ usdcValue ++ " USDC is required."

/-- The `handleConfirmedSubmit` of the direct-transfer revision: ensure the
wallet is available, convert the catalog price with `parseUnits(·, 6)`,
check the balance, fail with the insufficient-funds message if it is below
the required amount, run `transferUsdcDirectly` (any of its errors is
rethrown as the generic payment failure), and only then post the topup
request; a non-2xx response fails with the service's `error` field when
present. -/
def handleConfirmedSubmit (s : AirtimeService) (recipientPhone : String)
    (w : World) : Outcome × List Event :=
  if w.walletOk then
    let amountInWei := parseUnits s.usdc_value 6
    match checkUsdcBalance w with
    | (.error e, evs) => (.failed e, evs)
    | (.ok balance, evs) =>
      if balance < amountInWei then
        (.failed (.insufficientFunds (insufficientFundsMsg balance s.usdc_value)), evs)
      else
        match transferUsdcDirectly w amountInWei with
        | (.error _, evT) => (.failed .paymentFailed, evs ++ evT)
        | (.ok txHash, evT) =>
          let evP := evs ++ evT ++
            [Event.postTopup (API_BASE_URL ++ "/send-topup") (topupBody s recipientPhone txHash)]
          if w.topupOk then (.succeeded txHash, evP)
          else (.failed (.fulfillmentFailed (w.topupError.getD "Network response was not ok")), evP)
  else (.failed .walletUnavailable, [])

/-! ## The processPayment revisions -/

/-- Fulfillment request body of the `processPayment` revisions: the same
fields as `topupBody` but with no `tx_hash` field. -/
def topupBodyNoHash (s : AirtimeService) (recipientPhone : String) :
    List (String × JsonVal) :=
  [("operatorId", .str s.operator_id),
   ("amount", .num s.amount),
   ("currency", .str s.currency),
   ("recipientPhone", .str recipientPhone),
   ("senderPhone", .str "08012345678"),
   ("recipientEmail", .str "miniapp@aitimeplus.xyz")]

/-- The `handleConfirmedSubmit` of the `processPayment` revision that waits for
the receipt with a 60000 ms timeout and throws when it is reverted, then
posts the topup body (which carries no transaction hash). -/
def handleConfirmedSubmitProcessPayment (s : AirtimeService)
    (recipientPhone : String) (w : World) : Outcome × List Event :=
  if w.walletOk then
    let amountInWei := parseUnits s.usdc_value 6
    let evs := [Event.submitProcessPayment CONTRACT_ADDRESS amountInWei,
                Event.awaitReceipt w.paymentHash (some 60000)]
    match w.paymentReceipt with
    | .timeout => (.failed .confirmationTimeout, evs)
    | .reverted => (.failed .processPaymentReverted, evs)
    | .success =>
      let evP := evs ++
        [Event.postTopup (API_BASE_URL ++ "/send-topup") (topupBodyNoHash s recipientPhone)]
      if w.topupOk then (.succeeded w.paymentHash, evP)
      else (.failed (.fulfillmentFailed (w.topupError.getD "Network response was not ok")), evP)
  else (.failed .walletUnavailable, [])

/-- The `handleConfirmedSubmit` of the `processPayment` revision that calls
`waitForTransactionReceipt({ hash })` with no timeout argument and never
inspects the receipt's status: once any receipt is obtained — reverted or
not — it posts the topup request to the relative `/send-topup` URL. -/
def handleConfirmedSubmitNoStatusCheck (s : AirtimeService)
    (recipientPhone : String) (w : World) : Outcome × List Event :=
  if w.walletOk then
    let amountInWei := parseUnits s.usdc_value 6
    let evs := [Event.submitProcessPayment CONTRACT_ADDRESS amountInWei,
                Event.awaitReceipt w.paymentHash none]
    match w.paymentReceipt with
    | .timeout => (.failed .waitFailed, evs)
    | _ =>
      let evP := evs ++ [Event.postTopup "/send-topup" (topupBodyNoHash s recipientPhone)]
      if w.topupOk then (.succeeded w.paymentHash, evP)
      else (.failed (.fulfillmentFailed "Network response was not ok"), evP)
  else (.failed .walletUnavailable, [])

/-! ## Form validation and the Components.tsx variant -/

/-- Semantics of the JS test `/^\d{11}$/.test(s)`: the whole string is
exactly 11 decimal digits. -/
def phonePatternOk (s : String) : Bool :=
  s.toList.length == 11 && s.toList.all Char.isDigit

/-- The `handleSubmitForm` of the catalog-driven revisions: sequential checks
of country, operator, selected amount, phone presence and the 11-digit
pattern; `some msg` is the alert shown (the confirmation modal is not
opened), `none` means all checks passed and the modal opens. -/
def handleSubmitForm (selectedCountry selectedOperator : String)
    (selectedAmount : Option AirtimeService) (recipientPhone : String) :
    Option String :=
  if selectedCountry = "" then some "Please select a country."
  else if selectedOperator = "" then some "Please select an operator."
  else if selectedAmount.isNone then some "Please select an amount."
  else if recipientPhone = "" then some "Please enter recipient phone number."
  else if !(phonePatternOk recipientPhone) then
    some "Please enter a valid 11-digit phone number."
  else none

/-- The `handleSubmitForm` of the `Components.tsx` variant: amount presence,
phone presence, and the same 11-digit pattern. -/
def handleSubmitFormComponents (amount recipientPhone : String) : Option String :=
  if amount = "" then some "Please select an airtime amount."
  else if recipientPhone = "" then some "Please enter recipient phone number."
  else if !(phonePatternOk recipientPhone) then
    some "Please enter a valid 11-digit phone number."
  else none

/-- Fulfillment request body of the `Components.tsx` variant: fixed
operator id, the amount string, and the same literal sender phone and
recipient email. -/
def topupBodyComponents (amount recipientPhone : String) :
    List (String × JsonVal) :=
  [("operatorId", .str "100"),
   ("amount", .str amount),
   ("recipientPhone", .str recipientPhone),
   ("senderPhone", .str "08012345678"),
   ("recipientEmail", .str "miniapp@aitimeplus.xyz")]

/-! ## Event classifiers and fixtures -/

/-- Is the event an on-chain approval submission? -/
def isApproveSubmit : Event → Bool
  | .submitApprove .. => true
  | _ => false

/-- Is the event an on-chain transfer submission? -/
def isTransferSubmit : Event → Bool
  | .submitTransfer .. => true
  | _ => false

/-- Is the event any on-chain transaction submission? -/
def isTxSubmit : Event → Bool
  | .submitApprove .. => true
  | .submitTransfer .. => true
  | .submitProcessPayment .. => true
  | _ => false

/-- Is the event an outbound fulfillment call? -/
def isTopupPost : Event → Bool
  | .postTopup .. => true
  | _ => false

/-- Stablecoin token address an event touches, if any. -/
def eventToken : Event → Option String
  | .readBalance t _ => some t
  | .readAllowance t _ _ => some t
  | .submitApprove t _ _ => some t
  | .submitTransfer t _ _ => some t
  | _ => none

/-- Payment-destination address an event names (spender of an approval,
recipient of a transfer, target of a processPayment call), if any. -/
def eventDestination : Event → Option String
  | .readAllowance _ _ sp => some sp
  | .submitApprove _ sp _ => some sp
  | .submitTransfer _ r _ => some r
  | .submitProcessPayment c _ => some c
  | _ => none

/-- A concrete catalog entry used by witnesses and counterexamples. -/
def sampleService : AirtimeService :=
  { network_operator := "MTN", operator_id := "341", amount := 500,
    currency := "NGN", usdc_value := "0.33" }

/-- A concrete world in which every step succeeds, used as the base for
witnesses and counterexamples. -/
def baseWorld : World :=
  { walletOk := true, chainId := 8453, address := "0xUSER",
    balanceReadOk := true, balance := 1000000,
    allowanceAt := fun _ => 0,
    approveHash := "0xAPPROVE", approveReceipt := .success,
    transferHash := "0xTRANSFER", transferReceipt := .success,
    paymentHash := "0xPAY", paymentReceipt := .success,
    topupOk := true, topupError := none }

/-- Variant of `baseWorld` with a balance of 0.10 token units. -/
def lowBalanceWorld : World := { baseWorld with balance := 100000 }

/-- Variant of `baseWorld` with a failing fulfillment response carrying an error field. -/
def fulfillFailWorld : World :=
  { baseWorld with topupOk := false, topupError := some "Operator not supported" }

/-- Variant of `baseWorld` with a reverted processPayment receipt. -/
def revertedPaymentWorld : World :=
  { baseWorld with paymentReceipt := ReceiptOutcome.reverted }

/-- Variant of `baseWorld` with a reverted approval receipt. -/
def approveRevertedWorld : World :=
  { baseWorld with approveReceipt := ReceiptOutcome.reverted }

/-- Variant of `baseWorld` with a transfer receipt wait that timed out. -/
def transferTimeoutWorld : World :=
  { baseWorld with transferReceipt := ReceiptOutcome.timeout }

/-! ## Case analysis of the direct-transfer submission -/

/-- Exhaustive characterization of `handleConfirmedSubmit`: outcome and
event trace in each of the ten reachable cases. -/
lemma submit_cases (s : AirtimeService) (phone : String) (w : World) :
    (w.walletOk = false ∧
      handleConfirmedSubmit s phone w = (.failed .walletUnavailable, []))
  ∨ (w.walletOk = true ∧ w.balanceReadOk = false ∧
      handleConfirmedSubmit s phone w = (.failed .balanceCheckFailed,
        [.readChainId, .readBalance (usdcAddressFor w.chainId) w.address]))
  ∨ (w.walletOk = true ∧ w.balanceReadOk = true ∧
      w.balance < parseUnits s.usdc_value 6 ∧
      handleConfirmedSubmit s phone w =
        (.failed (.insufficientFunds (insufficientFundsMsg w.balance s.usdc_value)),
        [.readChainId, .readBalance (usdcAddressFor w.chainId) w.address]))
  ∨ (w.walletOk = true ∧ w.balanceReadOk = true ∧
      ¬ w.balance < parseUnits s.usdc_value 6 ∧
      w.allowanceAt (usdcAddressFor w.chainId) < parseUnits s.usdc_value 6 ∧
      w.approveReceipt ≠ .success ∧
      handleConfirmedSubmit s phone w = (.failed .paymentFailed,
        [.readChainId, .readBalance (usdcAddressFor w.chainId) w.address,
         .readChainId, .readAllowance (usdcAddressFor w.chainId) w.address CONTRACT_ADDRESS,
         .submitApprove (usdcAddressFor w.chainId) CONTRACT_ADDRESS (parseUnits s.usdc_value 6),
         .awaitReceipt w.approveHash (some 60000)]))
  ∨ (w.walletOk = true ∧ w.balanceReadOk = true ∧
      ¬ w.balance < parseUnits s.usdc_value 6 ∧
      w.allowanceAt (usdcAddressFor w.chainId) < parseUnits s.usdc_value 6 ∧
      w.approveReceipt = .success ∧ w.transferReceipt ≠ .success ∧
      handleConfirmedSubmit s phone w = (.failed .paymentFailed,
        [.readChainId, .readBalance (usdcAddressFor w.chainId) w.address,
         .readChainId, .readAllowance (usdcAddressFor w.chainId) w.address CONTRACT_ADDRESS,
         .submitApprove (usdcAddressFor w.chainId) CONTRACT_ADDRESS (parseUnits s.usdc_value 6),
         .awaitReceipt w.approveHash (some 60000),
         .submitTransfer (usdcAddressFor w.chainId) CONTRACT_ADDRESS (parseUnits s.usdc_value 6),
         .awaitReceipt w.transferHash (some 60000)]))
  ∨ (w.walletOk = true ∧ w.balanceReadOk = true ∧
      ¬ w.balance < parseUnits s.usdc_value 6 ∧
      w.allowanceAt (usdcAddressFor w.chainId) < parseUnits s.usdc_value 6 ∧
      w.approveReceipt = .success ∧ w.transferReceipt = .success ∧ w.topupOk = true ∧
      handleConfirmedSubmit s phone w = (.succeeded w.transferHash,
        [.readChainId, .readBalance (usdcAddressFor w.chainId) w.address,
         .readChainId, .readAllowance (usdcAddressFor w.chainId) w.address CONTRACT_ADDRESS,
         .submitApprove (usdcAddressFor w.chainId) CONTRACT_ADDRESS (parseUnits s.usdc_value 6),
         .awaitReceipt w.approveHash (some 60000),
         .submitTransfer (usdcAddressFor w.chainId) CONTRACT_ADDRESS (parseUnits s.usdc_value 6),
         .awaitReceipt w.transferHash (some 60000),
         .postTopup (API_BASE_URL ++ "/send-topup") (topupBody s phone w.transferHash)]))
  ∨ (w.walletOk = true ∧ w.balanceReadOk = true ∧
      ¬ w.balance < parseUnits s.usdc_value 6 ∧
      w.allowanceAt (usdcAddressFor w.chainId) < parseUnits s.usdc_value 6 ∧
      w.approveReceipt = .success ∧ w.transferReceipt = .success ∧ w.topupOk = false ∧
      handleConfirmedSubmit s phone w =
        (.failed (.fulfillmentFailed (w.topupError.getD "Network response was not ok")),
        [.readChainId, .readBalance (usdcAddressFor w.chainId) w.address,
         .readChainId, .readAllowance (usdcAddressFor w.chainId) w.address CONTRACT_ADDRESS,
         .submitApprove (usdcAddressFor w.chainId) CONTRACT_ADDRESS (parseUnits s.usdc_value 6),
         .awaitReceipt w.approveHash (some 60000),
         .submitTransfer (usdcAddressFor w.chainId) CONTRACT_ADDRESS (parseUnits s.usdc_value 6),
         .awaitReceipt w.transferHash (some 60000),
         .postTopup (API_BASE_URL ++ "/send-topup") (topupBody s phone w.transferHash)]))
  ∨ (w.walletOk = true ∧ w.balanceReadOk = true ∧
      ¬ w.balance < parseUnits s.usdc_value 6 ∧
      ¬ w.allowanceAt (usdcAddressFor w.chainId) < parseUnits s.usdc_value 6 ∧
      w.transferReceipt ≠ .success ∧
      handleConfirmedSubmit s phone w = (.failed .paymentFailed,
        [.readChainId, .readBalance (usdcAddressFor w.chainId) w.address,
         .readChainId, .readAllowance (usdcAddressFor w.chainId) w.address CONTRACT_ADDRESS,
         .submitTransfer (usdcAddressFor w.chainId) CONTRACT_ADDRESS (parseUnits s.usdc_value 6),
         .awaitReceipt w.transferHash (some 60000)]))
  ∨ (w.walletOk = true ∧ w.balanceReadOk = true ∧
      ¬ w.balance < parseUnits s.usdc_value 6 ∧
      ¬ w.allowanceAt (usdcAddressFor w.chainId) < parseUnits s.usdc_value 6 ∧
      w.transferReceipt = .success ∧ w.topupOk = true ∧
      handleConfirmedSubmit s phone w = (.succeeded w.transferHash,
        [.readChainId, .readBalance (usdcAddressFor w.chainId) w.address,
         .readChainId, .readAllowance (usdcAddressFor w.chainId) w.address CONTRACT_ADDRESS,
         .submitTransfer (usdcAddressFor w.chainId) CONTRACT_ADDRESS (parseUnits s.usdc_value 6),
         .awaitReceipt w.transferHash (some 60000),
         .postTopup (API_BASE_URL ++ "/send-topup") (topupBody s phone w.transferHash)]))
  ∨ (w.walletOk = true ∧ w.balanceReadOk = true ∧
      ¬ w.balance < parseUnits s.usdc_value 6 ∧
      ¬ w.allowanceAt (usdcAddressFor w.chainId) < parseUnits s.usdc_value 6 ∧
      w.transferReceipt = .success ∧ w.topupOk = false ∧
      handleConfirmedSubmit s phone w =
        (.failed (.fulfillmentFailed (w.topupError.getD "Network response was not ok")),
        [.readChainId, .readBalance (usdcAddressFor w.chainId) w.address,
         .readChainId, .readAllowance (usdcAddressFor w.chainId) w.address CONTRACT_ADDRESS,
         .submitTransfer (usdcAddressFor w.chainId) CONTRACT_ADDRESS (parseUnits s.usdc_value 6),
         .awaitReceipt w.transferHash (some 60000),
         .postTopup (API_BASE_URL ++ "/send-topup") (topupBody s phone w.transferHash)])) := by
  by_cases hw : w.walletOk
  · by_cases hbok : w.balanceReadOk
    · by_cases hbal : w.balance < parseUnits s.usdc_value 6
      · exact Or.inr (Or.inr (Or.inl ⟨hw, hbok, hbal, by
          simp [handleConfirmedSubmit, checkUsdcBalance, hw, hbok, hbal]⟩))
      · by_cases halw : w.allowanceAt (usdcAddressFor w.chainId) < parseUnits s.usdc_value 6
        · cases harec : w.approveReceipt
          · cases htrec : w.transferReceipt
            · by_cases htop : w.topupOk
              · exact Or.inr (Or.inr (Or.inr (Or.inr (Or.inr (Or.inl
                  ⟨hw, hbok, hbal, halw, rfl, rfl, htop, by
                    simp [handleConfirmedSubmit, checkUsdcBalance, transferUsdcDirectly,
                      transferStep, hw, hbok, hbal, halw, harec, htrec, htop]⟩)))))
              · exact Or.inr (Or.inr (Or.inr (Or.inr (Or.inr (Or.inr (Or.inl
                  ⟨hw, hbok, hbal, halw, rfl, rfl, by simpa using htop, by
                    simp [handleConfirmedSubmit, checkUsdcBalance, transferUsdcDirectly,
                      transferStep, hw, hbok, hbal, halw, harec, htrec, htop]⟩))))))
            · exact Or.inr (Or.inr (Or.inr (Or.inr (Or.inl
                ⟨hw, hbok, hbal, halw, rfl, by simp, by
                  simp [handleConfirmedSubmit, checkUsdcBalance, transferUsdcDirectly,
                    transferStep, hw, hbok, hbal, halw, harec, htrec]⟩))))
            · exact Or.inr (Or.inr (Or.inr (Or.inr (Or.inl
                ⟨hw, hbok, hbal, halw, rfl, by simp, by
                  simp [handleConfirmedSubmit, checkUsdcBalance, transferUsdcDirectly,
                    transferStep, hw, hbok, hbal, halw, harec, htrec]⟩))))
          · exact Or.inr (Or.inr (Or.inr (Or.inl ⟨hw, hbok, hbal, halw, by simp, by
              simp [handleConfirmedSubmit, checkUsdcBalance, transferUsdcDirectly,
                transferStep, hw, hbok, hbal, halw, harec]⟩)))
          · exact Or.inr (Or.inr (Or.inr (Or.inl ⟨hw, hbok, hbal, halw, by simp, by
              simp [handleConfirmedSubmit, checkUsdcBalance, transferUsdcDirectly,
                transferStep, hw, hbok, hbal, halw, harec]⟩)))
        · cases htrec : w.transferReceipt
          · by_cases htop : w.topupOk
            · exact Or.inr (Or.inr (Or.inr (Or.inr (Or.inr (Or.inr (Or.inr (Or.inr (Or.inl
                ⟨hw, hbok, hbal, halw, rfl, htop, by
                  simp [handleConfirmedSubmit, checkUsdcBalance, transferUsdcDirectly,
                    transferStep, hw, hbok, hbal, halw, htrec, htop]⟩))))))))
            · exact Or.inr (Or.inr (Or.inr (Or.inr (Or.inr (Or.inr (Or.inr (Or.inr (Or.inr
                ⟨hw, hbok, hbal, halw, rfl, by simpa using htop, by
                  simp [handleConfirmedSubmit, checkUsdcBalance, transferUsdcDirectly,
                    transferStep, hw, hbok, hbal, halw, htrec, htop]⟩))))))))
          · exact Or.inr (Or.inr (Or.inr (Or.inr (Or.inr (Or.inr (Or.inr (Or.inl
              ⟨hw, hbok, hbal, halw, by simp, by
                simp [handleConfirmedSubmit, checkUsdcBalance, transferUsdcDirectly,
                  transferStep, hw, hbok, hbal, halw, htrec]⟩)))))))
          · exact Or.inr (Or.inr (Or.inr (Or.inr (Or.inr (Or.inr (Or.inr (Or.inl
              ⟨hw, hbok, hbal, halw, by simp, by
                simp [handleConfirmedSubmit, checkUsdcBalance, transferUsdcDirectly,
                  transferStep, hw, hbok, hbal, halw, htrec]⟩)))))))
    · exact Or.inr (Or.inl ⟨hw, by simpa using hbok, by
        simp [handleConfirmedSubmit, checkUsdcBalance, hw, hbok]⟩)
  · exact Or.inl ⟨by simpa using hw, by simp [handleConfirmedSubmit, hw]⟩

/-! ## Decimal conversion lemmas -/

lemma stripTrailingZeros_eq_self (l : List Char) (h : l.getLast? ≠ some '0') :
    stripTrailingZeros l = l := by
  unfold stripTrailingZeros
  cases hr : l.reverse with
  | nil =>
    have hl : l = [] := by simpa using congrArg List.reverse hr
    simp [hl]
  | cons c t =>
    have hl : l = (c :: t).reverse := by rw [← hr, List.reverse_reverse]
    subst hl
    have hc : ¬ (c == '0') = true := by
      intro hcc
      apply h
      simp_all [List.reverse_cons, List.getLast?_concat, beq_iff_eq]
    have hc2 : (c == '0') = false := by simp_all
    simp [List.dropWhile, hc2]

lemma splitDot_of_no_dot (f : List Char) (hf : '.' ∉ f) : splitDot f = [f] := by
  induction f with
  | nil => simp [splitDot]
  | cons c cs ih =>
    have hc : ¬ c = '.' := fun hcc => hf (hcc ▸ List.mem_cons_self c cs)
    have hcs : '.' ∉ cs := fun hmem => hf (List.mem_cons_of_mem c hmem)
    simp [splitDot, hc, ih hcs]

lemma splitDot_append (i f : List Char) (hi : '.' ∉ i) (hf : '.' ∉ f) :
    splitDot (i ++ '.' :: f) = [i, f] := by
  induction i with
  | nil => simp [splitDot, splitDot_of_no_dot f hf]
  | cons c cs ih =>
    have hc : ¬ c = '.' := fun hcc => hi (hcc ▸ List.mem_cons_self c cs)
    have hcs : '.' ∉ cs := fun hmem => hi (List.mem_cons_of_mem c hmem)
    simp [splitDot, hc, ih hcs]

lemma no_dot_of_digits (l : List Char) (h : ∀ c ∈ l, c.isDigit) : '.' ∉ l := by
  intro hmem
  have := h '.' hmem
  simp [Char.isDigit] at this

lemma toList_dotted (i f : String) :
    (i ++ "." ++ f).toList = i.toList ++ '.' :: f.toList := by
  simp [String.toList, String.data_append]

lemma parseUnits_dotted (i f : String)
    (hi : ∀ c ∈ i.toList, c.isDigit) (hf : ∀ c ∈ f.toList, c.isDigit) :
    parseUnits (i ++ "." ++ f) 6 = parseUnitsFrac i.toList f.toList 6 := by
  unfold parseUnits
  rw [toList_dotted,
    splitDot_append i.toList f.toList (no_dot_of_digits _ hi) (no_dot_of_digits _ hf)]

lemma specTruncatedScale_dotted (i f : String)
    (hi : ∀ c ∈ i.toList, c.isDigit) (hf : ∀ c ∈ f.toList, c.isDigit) :
    specTruncatedScale (i ++ "." ++ f) = truncScaleFrac i.toList f.toList := by
  unfold specTruncatedScale
  rw [toList_dotted,
    splitDot_append i.toList f.toList (no_dot_of_digits _ hi) (no_dot_of_digits _ hf)]

lemma parseUnitsFrac_vs_trunc (i f : List Char) (hz : f.getLast? ≠ some '0') :
    parseUnitsFrac i f 6 = truncScaleFrac i f +
      (if roundHalfUpBit (f.drop 6) then 1 else 0) := by
  have hs : stripTrailingZeros f = f := stripTrailingZeros_eq_self f hz
  unfold parseUnitsFrac truncScaleFrac
  by_cases hl : f.length ≤ 6
  · have hd : f.drop 6 = [] := List.drop_eq_nil_of_le hl
    have ht : f.take 6 = f := List.take_of_length_le hl
    simp [hs, hl, hd, ht, roundHalfUpBit, min_eq_left hl]
  · have hmin : min f.length 6 = 6 := min_eq_right (by omega)
    simp [hs, hl, hmin]

/-! ## Claim theorems -/

/-- Claim C8 (amended): the catalog's decimal price is converted with
`parseUnits(·, 6)`, which scales by `10 ^ 6`; when the decimal rendering
has at most 6 fractional digits the result is exactly the truncated
scaling (no rounding is involved); when it has more than 6 fractional
digits the digits beyond the sixth are rounded half-up into the sixth,
rather than truncated. Integer-valued prices scale exactly. -/
theorem C8_price_conversion (i f : String)
    (hi : ∀ c ∈ i.toList, c.isDigit) (hf : ∀ c ∈ f.toList, c.isDigit)
    (hz : f.toList.getLast? ≠ some '0') :
    parseUnits (i ++ "." ++ f) 6 = specTruncatedScale (i ++ "." ++ f) +
        (if roundHalfUpBit (f.toList.drop 6) then 1 else 0)
    ∧ (f.toList.length ≤ 6 →
        parseUnits (i ++ "." ++ f) 6 = specTruncatedScale (i ++ "." ++ f))
    ∧ parseUnits i 6 = specTruncatedScale i := by
  have hmain : parseUnits (i ++ "." ++ f) 6 = specTruncatedScale (i ++ "." ++ f) +
      (if roundHalfUpBit (f.toList.drop 6) then 1 else 0) := by
    rw [parseUnits_dotted i f hi hf, specTruncatedScale_dotted i f hi hf]
    exact parseUnitsFrac_vs_trunc i.toList f.toList hz
  refine ⟨hmain, fun hlen => ?_, ?_⟩
  · have hd : List.drop 6 f.data = [] := List.drop_eq_nil_of_le hlen
    simp [hmain, roundHalfUpBit, String.toList, hd]
  · unfold parseUnits specTruncatedScale
    rw [splitDot_of_no_dot i.toList (no_dot_of_digits _ hi)]

/-- Claim C8 counterexample: a price with seven fractional digits is
rounded up by the code's conversion, not truncated as the claim states:
`parseUnits "0.1234567" 6` yields 123457 while truncated scaling yields
123456. -/
theorem C8_counterexample :
    parseUnits "0.1234567" 6 = 123457 ∧ specTruncatedScale "0.1234567" = 123456 ∧
    parseUnits "0.1234567" 6 ≠ specTruncatedScale "0.1234567" := by decide

/-- Claim C8 witness: the amended statement evaluated at the catalog price
0.33, where the conversion is the exact scaling 330000. -/
theorem C8_witness :
    (parseUnits ("0" ++ "." ++ "33") 6 = specTruncatedScale ("0" ++ "." ++ "33") +
        (if roundHalfUpBit ((String.toList "33").drop 6) then 1 else 0)
      ∧ ((String.toList "33").length ≤ 6 →
          parseUnits ("0" ++ "." ++ "33") 6 = specTruncatedScale ("0" ++ "." ++ "33"))
      ∧ parseUnits "0" 6 = specTruncatedScale "0")
    ∧ parseUnits ("0" ++ "." ++ "33") 6 = 330000 :=
  ⟨C8_price_conversion "0" "33" (by decide) (by decide) (by decide), by decide⟩

lemma phonePatternOk_iff (s : String) :
    phonePatternOk s = true ↔
      (s.toList.length = 11 ∧ ∀ c ∈ s.toList, c.isDigit) := by
  simp [phonePatternOk, List.all_eq_true]

lemma handleSubmitForm_none_iff (country op : String) (svc : AirtimeService)
    (phone : String) (hc : country ≠ "") (ho : op ≠ "") :
    handleSubmitForm country op (some svc) phone = none ↔
      phonePatternOk phone = true := by
  unfold handleSubmitForm
  by_cases hp : phone = ""
  · subst hp
    simp [hc, ho, phonePatternOk]
  · by_cases hq : phonePatternOk phone <;> simp [hc, ho, hp, hq]

lemma handleSubmitFormComponents_none_iff (amt phone : String) (ha : amt ≠ "") :
    handleSubmitFormComponents amt phone = none ↔
      phonePatternOk phone = true := by
  unfold handleSubmitFormComponents
  by_cases hp : phone = ""
  · subst hp
    simp [ha, phonePatternOk]
  · by_cases hq : phonePatternOk phone <;> simp [ha, hp, hq]

/-- Claim C9: with a country, operator and catalog amount selected, the
form is accepted (the confirmation modal opens, `none`) iff the recipient
phone consists of exactly 11 decimal digits; the 10-digit "0801234567" is
rejected with the user-facing alert and confirmation is not reached, while
the 11-digit "08012345678" is accepted; the `Components.tsx` validator
behaves identically on the phone field. -/
theorem C9_phone_validation (country op : String) (svc : AirtimeService)
    (phone amtStr : String) (hc : country ≠ "") (ho : op ≠ "") (ha : amtStr ≠ "") :
    (handleSubmitForm country op (some svc) phone = none ↔
      (phone.toList.length = 11 ∧ ∀ c ∈ phone.toList, c.isDigit))
    ∧ (handleSubmitFormComponents amtStr phone = none ↔
      (phone.toList.length = 11 ∧ ∀ c ∈ phone.toList, c.isDigit))
    ∧ handleSubmitForm country op (some svc) "0801234567" =
        some "Please enter a valid 11-digit phone number."
    ∧ handleSubmitForm country op (some svc) "08012345678" = none := by
  refine ⟨?_, ?_, ?_, ?_⟩
  · rw [handleSubmitForm_none_iff country op svc phone hc ho]
    exact phonePatternOk_iff phone
  · rw [handleSubmitFormComponents_none_iff amtStr phone ha]
    exact phonePatternOk_iff phone
  · unfold handleSubmitForm
    simp [hc, ho]
    decide
  · unfold handleSubmitForm
    simp [hc, ho]
    decide

/-- Claim C9 witness: the validation instantiated at concrete selections:
"0801234567" is rejected, "08012345678" is accepted. -/
theorem C9_witness :
    (handleSubmitForm "Nigeria" "MTN" (some sampleService) "08012345678" = none ↔
      (("08012345678").toList.length = 11 ∧ ∀ c ∈ ("08012345678").toList, c.isDigit))
    ∧ (handleSubmitFormComponents "500" "08012345678" = none ↔
      (("08012345678").toList.length = 11 ∧ ∀ c ∈ ("08012345678").toList, c.isDigit))
    ∧ handleSubmitForm "Nigeria" "MTN" (some sampleService) "0801234567" =
        some "Please enter a valid 11-digit phone number."
    ∧ handleSubmitForm "Nigeria" "MTN" (some sampleService) "08012345678" = none :=
  C9_phone_validation "Nigeria" "MTN" sampleService "08012345678" "500"
    (by decide) (by decide) (by decide)

/-- Claim C10: in every revision's fulfillment body — the direct-transfer
body, the processPayment body, and the `Components.tsx` body — the
`senderPhone` field is the literal "08012345678" and the `recipientEmail`
field is the literal "miniapp@aitimeplus.xyz", for all user input, wallet
state and catalog data; and every fulfillment call made by the
direct-transfer submission posts such a body. -/
theorem C10_constant_identity_fields (s : AirtimeService)
    (phone txHash amtStr : String) (w : World) :
    (topupBody s phone txHash).lookup "senderPhone" = some (.str "08012345678")
    ∧ (topupBody s phone txHash).lookup "recipientEmail" =
        some (.str "miniapp@aitimeplus.xyz")
    ∧ (topupBodyNoHash s phone).lookup "senderPhone" = some (.str "08012345678")
    ∧ (topupBodyNoHash s phone).lookup "recipientEmail" =
        some (.str "miniapp@aitimeplus.xyz")
    ∧ (topupBodyComponents amtStr phone).lookup "senderPhone" =
        some (.str "08012345678")
    ∧ (topupBodyComponents amtStr phone).lookup "recipientEmail" =
        some (.str "miniapp@aitimeplus.xyz")
    ∧ (∀ url b, Event.postTopup url b ∈ (handleConfirmedSubmit s phone w).2 →
        b.lookup "senderPhone" = some (.str "08012345678") ∧
        b.lookup "recipientEmail" = some (.str "miniapp@aitimeplus.xyz")) := by
  refine ⟨rfl, rfl, rfl, rfl, rfl, rfl, ?_⟩
  intro url b hmem
  rcases submit_cases s phone w with
      ⟨h1, heq⟩ | ⟨h1, h2, heq⟩ | ⟨h1, h2, h3, heq⟩ | ⟨h1, h2, h3, h4, h5, heq⟩ |
      ⟨h1, h2, h3, h4, h5, h6, heq⟩ | ⟨h1, h2, h3, h4, h5, h6, h7, heq⟩ |
      ⟨h1, h2, h3, h4, h5, h6, h7, heq⟩ | ⟨h1, h2, h3, h4, h5, heq⟩ |
      ⟨h1, h2, h3, h4, h5, h6, heq⟩ | ⟨h1, h2, h3, h4, h5, h6, heq⟩ <;>
    rw [heq] at hmem <;> simp at hmem
  all_goals obtain ⟨hu, hb⟩ := hmem
  all_goals subst hb
  all_goals exact ⟨rfl, rfl⟩

/-- Claim C10 witness: the constant fields at a concrete body and a
concrete successful submission. -/
theorem C10_witness :
    (topupBody sampleService "08011111111" "0xTRANSFER").lookup "senderPhone" =
        some (.str "08012345678")
    ∧ (topupBody sampleService "08011111111" "0xTRANSFER").lookup "recipientEmail" =
        some (.str "miniapp@aitimeplus.xyz")
    ∧ (topupBodyNoHash sampleService "08011111111").lookup "senderPhone" =
        some (.str "08012345678")
    ∧ (topupBodyNoHash sampleService "08011111111").lookup "recipientEmail" =
        some (.str "miniapp@aitimeplus.xyz")
    ∧ (topupBodyComponents "500" "08011111111").lookup "senderPhone" =
        some (.str "08012345678")
    ∧ (topupBodyComponents "500" "08011111111").lookup "recipientEmail" =
        some (.str "miniapp@aitimeplus.xyz")
    ∧ (∀ url b,
        Event.postTopup url b ∈ (handleConfirmedSubmit sampleService "08011111111" baseWorld).2 →
        b.lookup "senderPhone" = some (.str "08012345678") ∧
        b.lookup "recipientEmail" = some (.str "miniapp@aitimeplus.xyz")) :=
  C10_constant_identity_fields sampleService "08011111111" "0xTRANSFER" "500" baseWorld

/-- Claim C3: when the wallet is available, the balance read succeeds and
the balance is strictly below the required fixed-point amount, the attempt
fails with the insufficient-funds error whose message carries the
human-readable balance (`formatUnits(balance, 6)`) and the required amount
(the catalog's decimal price), and the trace contains zero on-chain
transaction submissions (no approval, no transfer). -/
theorem C3_insufficient_funds (s : AirtimeService) (phone : String) (w : World)
    (hw : w.walletOk = true) (hr : w.balanceReadOk = true)
    (hb : w.balance < parseUnits s.usdc_value 6) :
    (handleConfirmedSubmit s phone w).1 =
      .failed (.insufficientFunds ("Insufficient USDC balance. You have " ++
        formatUnits w.balance 6 ++ " USDC, but " ++ s.usdc_value ++
        " USDC is required."))
    ∧ (handleConfirmedSubmit s phone w).2.countP isTxSubmit = 0 := by
  rcases submit_cases s phone w with
      ⟨h1, heq⟩ | ⟨h1, h2, heq⟩ | ⟨h1, h2, h3, heq⟩ | ⟨h1, h2, h3, h4, h5, heq⟩ |
      ⟨h1, h2, h3, h4, h5, h6, heq⟩ | ⟨h1, h2, h3, h4, h5, h6, h7, heq⟩ |
      ⟨h1, h2, h3, h4, h5, h6, h7, heq⟩ | ⟨h1, h2, h3, h4, h5, heq⟩ |
      ⟨h1, h2, h3, h4, h5, h6, heq⟩ | ⟨h1, h2, h3, h4, h5, h6, heq⟩
  · rw [hw] at h1; exact absurd h1 (by simp)
  · rw [hr] at h2; exact absurd h2 (by simp)
  · rw [heq]; exact ⟨rfl, rfl⟩
  all_goals exact absurd hb h3

/-- Claim C3 witness: a balance of 0.10 token units against a 0.33 price
fails with the message carrying both amounts and submits nothing. -/
theorem C3_witness :
    (handleConfirmedSubmit sampleService "08011111111" lowBalanceWorld).1 =
      .failed (.insufficientFunds
        "Insufficient USDC balance. You have 0.1 USDC, but 0.33 USDC is required.")
    ∧ (handleConfirmedSubmit sampleService "08011111111" lowBalanceWorld).2.countP
        isTxSubmit = 0 :=
  C3_insufficient_funds sampleService "08011111111" lowBalanceWorld rfl rfl (by decide)

/-- Claim C6: the submission outcome is always exactly one of Succeeded or
Failed; when the payment confirms (transfer receipt success) but the
fulfillment response is not 2xx, the attempt is reported as Failed,
surfacing the service's `error` field when present, while the trace keeps
exactly one confirmed transfer submission (the on-chain payment remains
committed) and exactly one fulfillment call. -/
theorem C6_no_partial_success (s : AirtimeService) (phone : String) (w : World)
    (hw : w.walletOk = true) (hr : w.balanceReadOk = true)
    (hb : ¬ w.balance < parseUnits s.usdc_value 6)
    (ha : w.approveReceipt = .success ∨
      ¬ w.allowanceAt (usdcAddressFor w.chainId) < parseUnits s.usdc_value 6)
    (ht : w.transferReceipt = .success) (hf : w.topupOk = false) :
    (handleConfirmedSubmit s phone w).1 =
      .failed (.fulfillmentFailed (w.topupError.getD "Network response was not ok"))
    ∧ (handleConfirmedSubmit s phone w).2.countP isTransferSubmit = 1
    ∧ (handleConfirmedSubmit s phone w).2.countP isTopupPost = 1
    ∧ ∀ o : Outcome, (∃ h, o = .succeeded h) ↔ ¬ ∃ e, o = .failed e := by
  rcases submit_cases s phone w with
      ⟨h1, heq⟩ | ⟨h1, h2, heq⟩ | ⟨h1, h2, h3, heq⟩ | ⟨h1, h2, h3, h4, h5, heq⟩ |
      ⟨h1, h2, h3, h4, h5, h6, heq⟩ | ⟨h1, h2, h3, h4, h5, h6, h7, heq⟩ |
      ⟨h1, h2, h3, h4, h5, h6, h7, heq⟩ | ⟨h1, h2, h3, h4, h5, heq⟩ |
      ⟨h1, h2, h3, h4, h5, h6, heq⟩ | ⟨h1, h2, h3, h4, h5, h6, heq⟩
  · rw [hw] at h1; exact absurd h1 (by simp)
  · rw [hr] at h2; exact absurd h2 (by simp)
  · exact absurd h3 hb
  · rcases ha with ha | ha
    · exact absurd ha h5
    · exact absurd h4 ha
  · rw [ht] at h6; exact absurd h6 (by simp)
  · rw [hf] at h7; exact absurd h7 (by simp)
  · rw [heq]
    refine ⟨rfl, rfl, rfl, ?_⟩
    intro o; cases o <;> simp
  · rw [ht] at h5; exact absurd h5 (by simp)
  · rw [hf] at h6; exact absurd h6 (by simp)
  · rw [heq]
    refine ⟨rfl, rfl, rfl, ?_⟩
    intro o; cases o <;> simp

/-- Claim C6 witness: a confirmed payment whose fulfillment response is
non-2xx with a service error message fails with exactly that message. -/
theorem C6_witness :
    (handleConfirmedSubmit sampleService "08011111111" fulfillFailWorld).1 =
      .failed (.fulfillmentFailed "Operator not supported")
    ∧ (handleConfirmedSubmit sampleService "08011111111" fulfillFailWorld).2.countP
        isTransferSubmit = 1
    ∧ (handleConfirmedSubmit sampleService "08011111111" fulfillFailWorld).2.countP
        isTopupPost = 1
    ∧ ∀ o : Outcome, (∃ h, o = .succeeded h) ↔ ¬ ∃ e, o = .failed e :=
  C6_no_partial_success sampleService "08011111111" fulfillFailWorld
    rfl rfl (by decide) (Or.inl rfl) rfl rfl

/-- Claim C1 (amended): in the direct-transfer submission a fulfillment
call occurs iff the transfer transaction was submitted and its receipt
reported a non-reverted terminal state (so a reverted receipt, or a wait
that never yields a receipt, issues no fulfillment call), and every
fulfillment call is the final event, strictly after the transfer's receipt
wait; the processPayment revision that omits the status check instead
issues the fulfillment call whenever any receipt is obtained — even a
reverted one. -/
theorem C1_fulfillment_iff_confirmed (s : AirtimeService) (phone : String)
    (w : World) :
    ((handleConfirmedSubmit s phone w).2.countP isTopupPost ≠ 0 ↔
      ((handleConfirmedSubmit s phone w).2.countP isTransferSubmit ≠ 0 ∧
        w.transferReceipt = .success))
    ∧ (∀ url b, Event.postTopup url b ∈ (handleConfirmedSubmit s phone w).2 →
        (handleConfirmedSubmit s phone w).2.getLast? =
          some (Event.postTopup url b) ∧
        Event.awaitReceipt w.transferHash (some 60000) ∈
          (handleConfirmedSubmit s phone w).2.dropLast)
    ∧ (w.walletOk = true → w.paymentReceipt = .reverted →
        (handleConfirmedSubmitNoStatusCheck s phone w).2.countP isTopupPost = 1) := by
  refine ⟨?_, ?_, ?_⟩
  · rcases submit_cases s phone w with
        ⟨h1, heq⟩ | ⟨h1, h2, heq⟩ | ⟨h1, h2, h3, heq⟩ | ⟨h1, h2, h3, h4, h5, heq⟩ |
        ⟨h1, h2, h3, h4, h5, h6, heq⟩ | ⟨h1, h2, h3, h4, h5, h6, h7, heq⟩ |
        ⟨h1, h2, h3, h4, h5, h6, h7, heq⟩ | ⟨h1, h2, h3, h4, h5, heq⟩ |
        ⟨h1, h2, h3, h4, h5, h6, heq⟩ | ⟨h1, h2, h3, h4, h5, h6, heq⟩ <;>
      rw [heq] <;> simp_all [isTopupPost, isTransferSubmit]
  · intro url b hmem
    rcases submit_cases s phone w with
        ⟨h1, heq⟩ | ⟨h1, h2, heq⟩ | ⟨h1, h2, h3, heq⟩ | ⟨h1, h2, h3, h4, h5, heq⟩ |
        ⟨h1, h2, h3, h4, h5, h6, heq⟩ | ⟨h1, h2, h3, h4, h5, h6, h7, heq⟩ |
        ⟨h1, h2, h3, h4, h5, h6, h7, heq⟩ | ⟨h1, h2, h3, h4, h5, heq⟩ |
        ⟨h1, h2, h3, h4, h5, h6, heq⟩ | ⟨h1, h2, h3, h4, h5, h6, heq⟩ <;>
      rw [heq] at hmem ⊢ <;> simp at hmem
    all_goals obtain ⟨hu, hb2⟩ := hmem
    all_goals subst hu
    all_goals subst hb2
    all_goals exact ⟨rfl, by simp [List.dropLast]⟩
  · intro hwk hpr
    unfold handleConfirmedSubmitNoStatusCheck
    cases htop : w.topupOk <;> simp [hwk, hpr, htop, isTopupPost]

/-- Claim C1 counterexample: in the processPayment revision without a
receipt-status check, a payment whose receipt reports reversion still
triggers the fulfillment call — and the attempt is even reported as
succeeded. -/
theorem C1_counterexample :
    revertedPaymentWorld.paymentReceipt = .reverted
    ∧ (handleConfirmedSubmitNoStatusCheck sampleService "08011111111"
        revertedPaymentWorld).2.countP isTopupPost = 1
    ∧ (handleConfirmedSubmitNoStatusCheck sampleService "08011111111"
        revertedPaymentWorld).1 = .succeeded "0xPAY" := by decide

/-- Claim C1 witness: the amended invariant at a concrete world whose
transfer receipt reverted — no fulfillment call occurs. -/
theorem C1_witness :
    (((handleConfirmedSubmit sampleService "08011111111"
        { baseWorld with transferReceipt := ReceiptOutcome.reverted }).2.countP
          isTopupPost ≠ 0 ↔
      ((handleConfirmedSubmit sampleService "08011111111"
        { baseWorld with transferReceipt := ReceiptOutcome.reverted }).2.countP
          isTransferSubmit ≠ 0 ∧
        ({ baseWorld with transferReceipt := ReceiptOutcome.reverted } :
          World).transferReceipt = .success))
    ∧ (∀ url b, Event.postTopup url b ∈ (handleConfirmedSubmit sampleService
          "08011111111"
          { baseWorld with transferReceipt := ReceiptOutcome.reverted }).2 →
        (handleConfirmedSubmit sampleService "08011111111"
          { baseWorld with transferReceipt := ReceiptOutcome.reverted }).2.getLast? =
          some (Event.postTopup url b) ∧
        Event.awaitReceipt ({ baseWorld with transferReceipt :=
            ReceiptOutcome.reverted } : World).transferHash (some 60000) ∈
          (handleConfirmedSubmit sampleService "08011111111"
            { baseWorld with transferReceipt := ReceiptOutcome.reverted }).2.dropLast)
    ∧ (({ baseWorld with transferReceipt := ReceiptOutcome.reverted } :
          World).walletOk = true →
        ({ baseWorld with transferReceipt := ReceiptOutcome.reverted } :
          World).paymentReceipt = .reverted →
        (handleConfirmedSubmitNoStatusCheck sampleService "08011111111"
          { baseWorld with transferReceipt := ReceiptOutcome.reverted }).2.countP
            isTopupPost = 1))
    ∧ (handleConfirmedSubmit sampleService "08011111111"
        { baseWorld with transferReceipt := ReceiptOutcome.reverted }).2.countP
          isTopupPost = 0 :=
  ⟨C1_fulfillment_iff_confirmed sampleService "08011111111"
    { baseWorld with transferReceipt := ReceiptOutcome.reverted }, by decide⟩

/-- Claim C2 (amended): in the direct-transfer revision, every fulfillment
request is a POST to the `send-topup` endpoint whose body is exactly the
seven fields operatorId, amount, currency, recipientPhone, senderPhone,
recipientEmail and tx_hash, with tx_hash the hash of the transfer whose
receipt confirmed; every successful submission makes exactly one such
call; the processPayment revision posts the same body without the tx_hash
field. -/
theorem C2_fulfillment_body (s : AirtimeService) (phone : String) (w : World) :
    (∀ url b, Event.postTopup url b ∈ (handleConfirmedSubmit s phone w).2 →
        url = API_BASE_URL ++ "/send-topup" ∧
        b = topupBody s phone w.transferHash ∧ w.transferReceipt = .success)
    ∧ (∀ h, (handleConfirmedSubmit s phone w).1 = .succeeded h →
        h = w.transferHash ∧
        (handleConfirmedSubmit s phone w).2.countP isTopupPost = 1)
    ∧ (topupBody s phone w.transferHash).map Prod.fst =
        ["operatorId", "amount", "currency", "recipientPhone", "senderPhone",
         "recipientEmail", "tx_hash"]
    ∧ (topupBody s phone w.transferHash).lookup "tx_hash" =
        some (.str w.transferHash)
    ∧ (topupBodyNoHash s phone).map Prod.fst =
        ["operatorId", "amount", "currency", "recipientPhone", "senderPhone",
         "recipientEmail"]
    ∧ (topupBodyNoHash s phone).lookup "tx_hash" = none := by
  refine ⟨?_, ?_, rfl, rfl, rfl, rfl⟩
  · intro url b hmem
    rcases submit_cases s phone w with
        ⟨h1, heq⟩ | ⟨h1, h2, heq⟩ | ⟨h1, h2, h3, heq⟩ | ⟨h1, h2, h3, h4, h5, heq⟩ |
        ⟨h1, h2, h3, h4, h5, h6, heq⟩ | ⟨h1, h2, h3, h4, h5, h6, h7, heq⟩ |
        ⟨h1, h2, h3, h4, h5, h6, h7, heq⟩ | ⟨h1, h2, h3, h4, h5, heq⟩ |
        ⟨h1, h2, h3, h4, h5, h6, heq⟩ | ⟨h1, h2, h3, h4, h5, h6, heq⟩ <;>
      rw [heq] at hmem <;> simp at hmem
    · exact ⟨hmem.1, hmem.2, h6⟩
    · exact ⟨hmem.1, hmem.2, h6⟩
    · exact ⟨hmem.1, hmem.2, h5⟩
    · exact ⟨hmem.1, hmem.2, h5⟩
  · intro h hout
    rcases submit_cases s phone w with
        ⟨h1, heq⟩ | ⟨h1, h2, heq⟩ | ⟨h1, h2, h3, heq⟩ | ⟨h1, h2, h3, h4, h5, heq⟩ |
        ⟨h1, h2, h3, h4, h5, h6, heq⟩ | ⟨h1, h2, h3, h4, h5, h6, h7, heq⟩ |
        ⟨h1, h2, h3, h4, h5, h6, h7, heq⟩ | ⟨h1, h2, h3, h4, h5, heq⟩ |
        ⟨h1, h2, h3, h4, h5, h6, heq⟩ | ⟨h1, h2, h3, h4, h5, h6, heq⟩ <;>
      rw [heq] at hout <;> simp at hout
    · exact ⟨hout.symm, by rw [heq]; rfl⟩
    · exact ⟨hout.symm, by rw [heq]; rfl⟩

/-- Claim C2 counterexample: the processPayment revision issues, after a
payment confirmed by a success receipt, a fulfillment request whose body
has no tx_hash field at all. -/
theorem C2_counterexample :
    (handleConfirmedSubmitProcessPayment sampleService "08011111111" baseWorld).1 =
      .succeeded "0xPAY"
    ∧ Event.postTopup (API_BASE_URL ++ "/send-topup")
        (topupBodyNoHash sampleService "08011111111") ∈
        (handleConfirmedSubmitProcessPayment sampleService "08011111111" baseWorld).2
    ∧ (topupBodyNoHash sampleService "08011111111").lookup "tx_hash" = none
    ∧ baseWorld.paymentReceipt = .success := by decide

/-- Claim C2 witness: the amended statement at a concrete successful
submission, where exactly one fulfillment call carries the transfer hash. -/
theorem C2_witness :
    ((∀ url b, Event.postTopup url b ∈
        (handleConfirmedSubmit sampleService "08011111111" baseWorld).2 →
        url = API_BASE_URL ++ "/send-topup" ∧
        b = topupBody sampleService "08011111111" baseWorld.transferHash ∧
        baseWorld.transferReceipt = .success)
    ∧ (∀ h, (handleConfirmedSubmit sampleService "08011111111" baseWorld).1 =
          .succeeded h →
        h = baseWorld.transferHash ∧
        (handleConfirmedSubmit sampleService "08011111111" baseWorld).2.countP
          isTopupPost = 1)
    ∧ (topupBody sampleService "08011111111" baseWorld.transferHash).map Prod.fst =
        ["operatorId", "amount", "currency", "recipientPhone", "senderPhone",
         "recipientEmail", "tx_hash"]
    ∧ (topupBody sampleService "08011111111" baseWorld.transferHash).lookup
        "tx_hash" = some (.str baseWorld.transferHash)
    ∧ (topupBodyNoHash sampleService "08011111111").map Prod.fst =
        ["operatorId", "amount", "currency", "recipientPhone", "senderPhone",
         "recipientEmail"]
    ∧ (topupBodyNoHash sampleService "08011111111").lookup "tx_hash" = none)
    ∧ (handleConfirmedSubmit sampleService "08011111111" baseWorld).1 =
        .succeeded "0xTRANSFER" :=
  ⟨C2_fulfillment_body sampleService "08011111111" baseWorld, by decide⟩

/-- Claim C4: in the transfer step, if the allowance covers the required
amount no approval is submitted (only the transfer); if the allowance is
below it, exactly one approval is submitted, its receipt wait (60000 ms)
ends the prefix that precedes every further event — in particular any
transfer submission — a transfer is only submitted when the approval
receipt succeeded, and a reverted approval receipt fails the step with the
approval-reverted error and no transfer; a reverted approval also prevents
the whole submission from succeeding. -/
theorem C4_approval_policy (w : World) (amt : Nat) (s : AirtimeService)
    (phone : String) :
    (¬ w.allowanceAt (usdcAddressFor w.chainId) < amt →
      (transferUsdcDirectly w amt).2.countP isApproveSubmit = 0 ∧
      (transferUsdcDirectly w amt).2.countP isTransferSubmit = 1)
    ∧ (w.allowanceAt (usdcAddressFor w.chainId) < amt →
      (transferUsdcDirectly w amt).2.countP isApproveSubmit = 1 ∧
      (∃ rest, (transferUsdcDirectly w amt).2 =
        [.readChainId,
         .readAllowance (usdcAddressFor w.chainId) w.address CONTRACT_ADDRESS,
         .submitApprove (usdcAddressFor w.chainId) CONTRACT_ADDRESS amt,
         .awaitReceipt w.approveHash (some 60000)] ++ rest ∧
        rest.countP isApproveSubmit = 0) ∧
      ((transferUsdcDirectly w amt).2.countP isTransferSubmit ≠ 0 →
        w.approveReceipt = .success) ∧
      (w.approveReceipt = .reverted →
        (transferUsdcDirectly w amt).1 = .error .approvalReverted ∧
        (transferUsdcDirectly w amt).2.countP isTransferSubmit = 0))
    ∧ (w.allowanceAt (usdcAddressFor w.chainId) < parseUnits s.usdc_value 6 →
       w.approveReceipt = .reverted →
        ¬ ∃ h, (handleConfirmedSubmit s phone w).1 = .succeeded h) := by
  refine ⟨?_, ?_, ?_⟩
  · intro hge
    unfold transferUsdcDirectly transferStep
    rw [if_neg hge]
    cases htrec : w.transferReceipt <;> simp [isApproveSubmit, isTransferSubmit]
  · intro hlt
    unfold transferUsdcDirectly transferStep
    rw [if_pos hlt]
    cases harec : w.approveReceipt
    · cases htrec : w.transferReceipt <;>
        exact ⟨rfl, ⟨[.submitTransfer (usdcAddressFor w.chainId) CONTRACT_ADDRESS amt,
          .awaitReceipt w.transferHash (some 60000)], rfl, rfl⟩,
          fun _ => rfl, by simp⟩
    · exact ⟨rfl, ⟨[], rfl, rfl⟩, fun hc => absurd rfl hc, fun _ => ⟨rfl, rfl⟩⟩
    · exact ⟨rfl, ⟨[], rfl, rfl⟩, fun hc => absurd rfl hc, by simp⟩
  · intro hlt hrev
    rintro ⟨h, hsucc⟩
    rcases submit_cases s phone w with
        ⟨h1, heq⟩ | ⟨h1, h2, heq⟩ | ⟨h1, h2, h3, heq⟩ | ⟨h1, h2, h3, h4, h5, heq⟩ |
        ⟨h1, h2, h3, h4, h5, h6, heq⟩ | ⟨h1, h2, h3, h4, h5, h6, h7, heq⟩ |
        ⟨h1, h2, h3, h4, h5, h6, h7, heq⟩ | ⟨h1, h2, h3, h4, h5, heq⟩ |
        ⟨h1, h2, h3, h4, h5, h6, heq⟩ | ⟨h1, h2, h3, h4, h5, h6, heq⟩ <;>
      rw [heq] at hsucc <;> simp at hsucc
    · rw [hrev] at h5; exact absurd h5 (by simp)
    · exact h4 hlt

/-- Claim C4 witness: with zero allowance and a reverted approval receipt,
exactly one approval is submitted, the step fails with the
approval-reverted error, and no transfer is submitted. -/
theorem C4_witness :
    ((¬ approveRevertedWorld.allowanceAt (usdcAddressFor approveRevertedWorld.chainId)
        < 330000 →
      (transferUsdcDirectly approveRevertedWorld 330000).2.countP isApproveSubmit = 0 ∧
      (transferUsdcDirectly approveRevertedWorld 330000).2.countP isTransferSubmit = 1)
    ∧ (approveRevertedWorld.allowanceAt (usdcAddressFor approveRevertedWorld.chainId)
        < 330000 →
      (transferUsdcDirectly approveRevertedWorld 330000).2.countP isApproveSubmit = 1 ∧
      (∃ rest, (transferUsdcDirectly approveRevertedWorld 330000).2 =
        [.readChainId,
         .readAllowance (usdcAddressFor approveRevertedWorld.chainId)
           approveRevertedWorld.address CONTRACT_ADDRESS,
         .submitApprove (usdcAddressFor approveRevertedWorld.chainId)
           CONTRACT_ADDRESS 330000,
         .awaitReceipt approveRevertedWorld.approveHash (some 60000)] ++ rest ∧
        rest.countP isApproveSubmit = 0) ∧
      ((transferUsdcDirectly approveRevertedWorld 330000).2.countP
          isTransferSubmit ≠ 0 →
        approveRevertedWorld.approveReceipt = .success) ∧
      (approveRevertedWorld.approveReceipt = .reverted →
        (transferUsdcDirectly approveRevertedWorld 330000).1 =
          .error .approvalReverted ∧
        (transferUsdcDirectly approveRevertedWorld 330000).2.countP
          isTransferSubmit = 0))
    ∧ (approveRevertedWorld.allowanceAt (usdcAddressFor approveRevertedWorld.chainId)
        < parseUnits sampleService.usdc_value 6 →
       approveRevertedWorld.approveReceipt = .reverted →
        ¬ ∃ h, (handleConfirmedSubmit sampleService "08011111111"
          approveRevertedWorld).1 = .succeeded h))
    ∧ approveRevertedWorld.allowanceAt (usdcAddressFor approveRevertedWorld.chainId)
        < 330000
    ∧ approveRevertedWorld.approveReceipt = .reverted :=
  ⟨C4_approval_policy approveRevertedWorld 330000 sampleService "08011111111",
    by decide, rfl⟩

/-- Claim C5 (amended): in the direct-transfer flow every receipt wait
requests a 60000 ms timeout; a wait that times out makes the transfer step
fail with the confirmation-timeout error, and the submission is then not
reported successful and makes no fulfillment call. (The processPayment
revision without a timeout argument requests no such bound — see the
counterexample.) -/
theorem C5_receipt_wait_bound (s : AirtimeService) (phone : String)
    (w : World) (amt : Nat) :
    (∀ h t, Event.awaitReceipt h t ∈ (handleConfirmedSubmit s phone w).2 →
      t = some 60000)
    ∧ (w.transferReceipt = .timeout →
        (w.approveReceipt = .success ∨
          ¬ w.allowanceAt (usdcAddressFor w.chainId) < amt) →
        (transferUsdcDirectly w amt).1 = .error .confirmationTimeout)
    ∧ (w.approveReceipt = .timeout →
        w.allowanceAt (usdcAddressFor w.chainId) < amt →
        (transferUsdcDirectly w amt).1 = .error .confirmationTimeout)
    ∧ (w.transferReceipt = .timeout →
        (¬ ∃ h, (handleConfirmedSubmit s phone w).1 = .succeeded h) ∧
        (handleConfirmedSubmit s phone w).2.countP isTopupPost = 0)
    ∧ (w.approveReceipt = .timeout →
        w.allowanceAt (usdcAddressFor w.chainId) < parseUnits s.usdc_value 6 →
        (¬ ∃ h, (handleConfirmedSubmit s phone w).1 = .succeeded h) ∧
        (handleConfirmedSubmit s phone w).2.countP isTopupPost = 0) := by
  refine ⟨?_, ?_, ?_, ?_, ?_⟩
  · intro h t hmem
    rcases submit_cases s phone w with
        ⟨h1, heq⟩ | ⟨h1, h2, heq⟩ | ⟨h1, h2, h3, heq⟩ | ⟨h1, h2, h3, h4, h5, heq⟩ |
        ⟨h1, h2, h3, h4, h5, h6, heq⟩ | ⟨h1, h2, h3, h4, h5, h6, h7, heq⟩ |
        ⟨h1, h2, h3, h4, h5, h6, h7, heq⟩ | ⟨h1, h2, h3, h4, h5, heq⟩ |
        ⟨h1, h2, h3, h4, h5, h6, heq⟩ | ⟨h1, h2, h3, h4, h5, h6, heq⟩ <;>
      rw [heq] at hmem <;> simp at hmem <;> tauto
  · intro htt hcase
    unfold transferUsdcDirectly transferStep
    rcases hcase with ha | hge
    · by_cases hlt : w.allowanceAt (usdcAddressFor w.chainId) < amt
      · rw [if_pos hlt]; simp [ha, htt]
      · rw [if_neg hlt]; simp [htt]
    · rw [if_neg hge]; simp [htt]
  · intro hat hlt
    unfold transferUsdcDirectly
    rw [if_pos hlt]; simp [hat]
  · intro htt
    rcases submit_cases s phone w with
        ⟨h1, heq⟩ | ⟨h1, h2, heq⟩ | ⟨h1, h2, h3, heq⟩ | ⟨h1, h2, h3, h4, h5, heq⟩ |
        ⟨h1, h2, h3, h4, h5, h6, heq⟩ | ⟨h1, h2, h3, h4, h5, h6, h7, heq⟩ |
        ⟨h1, h2, h3, h4, h5, h6, h7, heq⟩ | ⟨h1, h2, h3, h4, h5, heq⟩ |
        ⟨h1, h2, h3, h4, h5, h6, heq⟩ | ⟨h1, h2, h3, h4, h5, h6, heq⟩ <;>
      rw [heq] <;> simp_all [isTopupPost]
  · intro hat hlt
    rcases submit_cases s phone w with
        ⟨h1, heq⟩ | ⟨h1, h2, heq⟩ | ⟨h1, h2, h3, heq⟩ | ⟨h1, h2, h3, h4, h5, heq⟩ |
        ⟨h1, h2, h3, h4, h5, h6, heq⟩ | ⟨h1, h2, h3, h4, h5, h6, h7, heq⟩ |
        ⟨h1, h2, h3, h4, h5, h6, h7, heq⟩ | ⟨h1, h2, h3, h4, h5, heq⟩ |
        ⟨h1, h2, h3, h4, h5, h6, heq⟩ | ⟨h1, h2, h3, h4, h5, h6, heq⟩ <;>
      rw [heq] <;> simp_all [isTopupPost]

/-- Claim C5 counterexample: the processPayment revision without a timeout
argument waits for its receipt with no timeout parameter at all, so no
60-second bound is requested for that submitted transaction's wait. -/
theorem C5_counterexample :
    Event.awaitReceipt "0xPAY" none ∈
      (handleConfirmedSubmitNoStatusCheck sampleService "08011111111" baseWorld).2
    ∧ (none : Option Nat) ≠ some 60000 := by decide

/-- Claim C5 witness: a timed-out transfer wait at a concrete world fails
the step with the confirmation-timeout error and issues no fulfillment
call. -/
theorem C5_witness :
    (transferUsdcDirectly transferTimeoutWorld 330000).1 =
      .error .confirmationTimeout
    ∧ (handleConfirmedSubmit sampleService "08011111111"
        transferTimeoutWorld).2.countP isTopupPost = 0 :=
  ⟨(C5_receipt_wait_bound sampleService "08011111111" transferTimeoutWorld
      330000).2.1 rfl (Or.inl rfl),
   ((C5_receipt_wait_bound sampleService "08011111111" transferTimeoutWorld
      330000).2.2.2.1 rfl).2⟩

/-- Claim C7 (amended): every token access performed by the direct-transfer
submission (balance read, allowance read, approval, transfer) uses the
token address selected from the connected chain id — the mainnet address
when the chain id is 1 and the Base address otherwise — and every
destination named is the fixed payment contract; the standalone
`checkAllowance` helper, however, always reads the allowance at the
mainnet token address regardless of the connected chain (it is not invoked
by the submission flow). -/
theorem C7_token_address_selection (s : AirtimeService) (phone : String)
    (w : World) :
    (∀ e ∈ (handleConfirmedSubmit s phone w).2, ∀ t, eventToken e = some t →
        t = usdcAddressFor w.chainId)
    ∧ (∀ e ∈ (handleConfirmedSubmit s phone w).2, ∀ d,
        eventDestination e = some d → d = CONTRACT_ADDRESS)
    ∧ usdcAddressFor 1 = USDC_CONTRACT_ADDRESS
    ∧ (∀ c, c ≠ 1 → usdcAddressFor c = BASE_USDC_CONTRACT_ADDRESS)
    ∧ (checkAllowance w).2 =
        [Event.readAllowance USDC_CONTRACT_ADDRESS w.address CONTRACT_ADDRESS] := by
  refine ⟨?_, ?_, rfl, fun c hc => by simp [usdcAddressFor, hc], rfl⟩
  · rcases submit_cases s phone w with
        ⟨h1, heq⟩ | ⟨h1, h2, heq⟩ | ⟨h1, h2, h3, heq⟩ | ⟨h1, h2, h3, h4, h5, heq⟩ |
        ⟨h1, h2, h3, h4, h5, h6, heq⟩ | ⟨h1, h2, h3, h4, h5, h6, h7, heq⟩ |
        ⟨h1, h2, h3, h4, h5, h6, h7, heq⟩ | ⟨h1, h2, h3, h4, h5, heq⟩ |
        ⟨h1, h2, h3, h4, h5, h6, heq⟩ | ⟨h1, h2, h3, h4, h5, h6, heq⟩ <;>
      rw [heq] <;> simp [List.forall_mem_cons, eventToken]
  · rcases submit_cases s phone w with
        ⟨h1, heq⟩ | ⟨h1, h2, heq⟩ | ⟨h1, h2, h3, heq⟩ | ⟨h1, h2, h3, h4, h5, heq⟩ |
        ⟨h1, h2, h3, h4, h5, h6, heq⟩ | ⟨h1, h2, h3, h4, h5, h6, h7, heq⟩ |
        ⟨h1, h2, h3, h4, h5, h6, h7, heq⟩ | ⟨h1, h2, h3, h4, h5, heq⟩ |
        ⟨h1, h2, h3, h4, h5, h6, heq⟩ | ⟨h1, h2, h3, h4, h5, h6, heq⟩ <;>
      rw [heq] <;> simp [List.forall_mem_cons, eventDestination]

/-- Claim C7 counterexample: with the connected chain id 8453 (Base), the
`checkAllowance` helper still reads the allowance at the mainnet token
address, which is not the address selected from the chain id. -/
theorem C7_counterexample :
    (checkAllowance baseWorld).2 =
      [Event.readAllowance USDC_CONTRACT_ADDRESS "0xUSER" CONTRACT_ADDRESS]
    ∧ baseWorld.chainId = 8453
    ∧ USDC_CONTRACT_ADDRESS ≠ usdcAddressFor baseWorld.chainId := by decide

/-- Claim C7 witness: at a concrete Base-chain world, every token access of
the submission uses the chain-selected address, and chain id 1 selects the
mainnet address. -/
theorem C7_witness :
    (∀ e ∈ (handleConfirmedSubmit sampleService "08011111111" baseWorld).2,
      ∀ t, eventToken e = some t → t = usdcAddressFor baseWorld.chainId)
    ∧ usdcAddressFor 1 = USDC_CONTRACT_ADDRESS :=
  ⟨(C7_token_address_selection sampleService "08011111111" baseWorld).1,
   (C7_token_address_selection sampleService "08011111111" baseWorld).2.2.1⟩
